import Mathlib

/-!
# Canvas Builder API — shallow embedding and verification

A shallow Lean embedding of `src/backend/src/routes/canvas.js`: an in-memory
registry of canvas sessions, five element-adding routes (rectangle, circle,
text, image-by-URL, image-by-upload), a PNG preview route, a PDF export
route, an info route and a delete route.

The handlers' control flow (session lookup, JavaScript-truthiness field
validation, default resolution via destructuring defaults, draw, push onto
the element log) is translated route by route.  The pixel-level semantics
of the drawing library's primitives (`fillRect`, `strokeRect`, `arc`,
`fillText`, `drawImage`) is modelled from the spec's per-shape draw
contracts, since the library itself is an external collaborator: each
primitive deterministically overwrites the pixels of its footprint with
the element's color (painter's algorithm, later draws over earlier ones).
Text glyph rasterisation and image sampling are kept abstract as a
`RenderLib` parameter: every theorem below holds for an arbitrary
deterministic rasteriser.
-/

namespace CanvasBuilder

/-- A pixel value: either still the transparent value a freshly allocated
canvas holds, or a solid color identified by its CSS color string. -/
inductive Pixel
  | transparent
  | rgb (color : String)
deriving DecidableEq, Repr

/-- The mutable raster target of a session: fixed pixel dimensions plus the
current color of every integer pixel coordinate. -/
structure Surface where
  width : Int
  height : Int
  pix : Int → Int → Pixel

/-- A draw primitive's footprint: for each pixel, either `some` color that
the primitive writes there, or `none` where it leaves the surface alone. -/
def Mask := Int → Int → Option Pixel

/-- Overwrite the pixels in the mask's footprint, leaving the rest of the
surface (and its dimensions) unchanged — the painter's-algorithm step. -/
def applyMask (m : Mask) (s : Surface) : Surface :=
  { s with pix := fun i j => (m i j).getD (s.pix i j) }

/-- Modelled from the spec: `ctx.fillRect(x, y, w, h)` paints a solid box. -/
def rectFillMask (color : String) (x y w h : Int) : Mask :=
  fun i j =>
    if x ≤ i ∧ i < x + w ∧ y ≤ j ∧ j < y + h then some (Pixel.rgb color) else none

/-- Modelled from the spec: `ctx.strokeRect` with `lineWidth = 2` paints a
2px-wide outline band centred on the box boundary. -/
def rectStrokeMask (color : String) (x y w h : Int) : Mask :=
  fun i j =>
    if (x - 1 ≤ i ∧ i < x + w + 1 ∧ y - 1 ≤ j ∧ j < y + h + 1) ∧
        ¬ (x + 1 ≤ i ∧ i < x + w - 1 ∧ y + 1 ≤ j ∧ j < y + h - 1) then
      some (Pixel.rgb color)
    else none

/-- Modelled from the spec: a filled full-circle arc centred at `(x, y)`. -/
def circleFillMask (color : String) (x y r : Int) : Mask :=
  fun i j =>
    if (i - x) ^ 2 + (j - y) ^ 2 ≤ r ^ 2 then some (Pixel.rgb color) else none

/-- Modelled from the spec: a 2px-wide stroked full-circle arc. -/
def circleStrokeMask (color : String) (x y r : Int) : Mask :=
  fun i j =>
    if (r - 1) ^ 2 ≤ (i - x) ^ 2 + (j - y) ^ 2 ∧
        (i - x) ^ 2 + (j - y) ^ 2 ≤ (r + 1) ^ 2 then
      some (Pixel.rgb color)
    else none

/-- A decoded raster image: natural pixel dimensions plus content, the
result of a successful `loadImage`. -/
structure DecodedImage where
  width : Int
  height : Int
  pix : Int → Int → Pixel

/-- A resolved rectangle element, exactly the object pushed onto
`canvases[id].elements` by the rectangle route. -/
structure RectElem where
  x : Int
  y : Int
  width : Int
  height : Int
  color : String
  isFilled : Bool
deriving DecidableEq, Repr

/-- A resolved circle element as pushed by the circle route. -/
structure CircleElem where
  x : Int
  y : Int
  radius : Int
  color : String
  isFilled : Bool
deriving DecidableEq, Repr

/-- A resolved text element as pushed by the text route. -/
structure TextElem where
  text : String
  x : Int
  y : Int
  fontSize : Int
  fontFamily : String
  color : String
  align : String
deriving DecidableEq, Repr

/-- A resolved image element as pushed by the two image routes.  The URL
route records `url := some u`; the upload route's pushed object has no
`url` property at all, modelled as `url := none`. -/
structure ImageElem where
  url : Option String
  x : Int
  y : Int
  width : Int
  height : Int
deriving DecidableEq, Repr

/-- The tagged element variant stored in a session's element log. -/
inductive Element
  | rectangle (r : RectElem)
  | circle (c : CircleElem)
  | text (t : TextElem)
  | image (i : ImageElem)
deriving DecidableEq, Repr

/-- Modelled from the spec: the external drawing library's deterministic
pixel-level rendering of text runs and image compositing.  `textPaint`
gives the footprint and colors of a resolved text element; `imagePaint img
x y w h` gives the footprint of compositing `img` into the draw box. -/
structure RenderLib where
  textPaint : TextElem → Mask
  imagePaint : DecodedImage → Int → Int → Int → Int → Mask

/-- One session's registry entry: the object `{canvas, width, height,
elements}` stored in `canvases[id]`. -/
structure Session where
  canvas : Surface
  width : Int
  height : Int
  elements : List Element

/-- The in-memory `canvases` object: a map from session id to entry. -/
def Registry := String → Option Session

/-- Own-property lookup in `canvases`: the sessions the router has
stored.  Bare `canvases[id]` in JavaScript additionally hits inherited
`Object.prototype` members for a dozen special key strings; that full
lookup is modelled by `canvasesTruthy` and the `...Js` route variants
below, while the base route models use own-property semantics (the two
agree at every id that is stored or hits nothing at all). -/
def getCanvas (reg : Registry) (id : String) : Option Session :=
  reg id

/-- Property assignment `canvases[id] = sess`. -/
def setCanvas (reg : Registry) (id : String) (sess : Session) : Registry :=
  fun k => if k = id then some sess else reg k

/-- Property removal `delete canvases[id]`. -/
def removeCanvas (reg : Registry) (id : String) : Registry :=
  fun k => if k = id then none else reg k

/-- JavaScript truthiness of an optional integer body field: `undefined`
and `0` are falsy, everything else truthy.  Models checks like `!width`. -/
def jsFalsy : Option Int → Bool
  | none => true
  | some n => n == 0

/-- JavaScript truthiness of an optional string body field: `undefined`
and the empty string are falsy.  Models checks like `!text` and `!url`. -/
def jsFalsyStr : Option String → Bool
  | none => true
  | some s => s == ""

/-- The error responses the router can send (messages from the source).
`internalError` is a route's catch-block 500 response (the spec's
`InternalRenderFailure`), reached when the handler throws mid-request —
in particular when `canvases[id].canvas` is accessed on an inherited
`Object.prototype` value. -/
inductive ApiError
  | missingDimensions
  | nonPositiveDimensions
  | dimensionsTooLarge
  | canvasNotFound
  | missingFields (msg : String)
  | missingFile
  | imageLoadFailure
  | imageUploadFailure
  | internalError (msg : String)
deriving DecidableEq, Repr

/-- The spec's `InvalidDimensions` error class: every validation failure of
the init operation (dimensions missing, non-positive, or above 5000). -/
def ApiError.isInvalidDimensions : ApiError → Bool
  | .missingDimensions => true
  | .nonPositiveDimensions => true
  | .dimensionsTooLarge => true
  | _ => false

/-- The JSON body of a successful init response. -/
structure InitResponse where
  id : String
  width : Int
  height : Int
deriving DecidableEq, Repr

/-- The JSON body of a successful info response. -/
structure InfoResponse where
  id : String
  width : Int
  height : Int
  elementCount : Nat
  elements : List Element
deriving DecidableEq, Repr

/-- A freshly allocated canvas of the given dimensions (`createCanvas`):
all pixels still transparent. -/
def createCanvas (w h : Int) : Surface :=
  { width := w, height := h, pix := fun _ _ => Pixel.transparent }

/-- `ctx.fillRect` after setting `fillStyle := color`. -/
def fillRect (s : Surface) (color : String) (x y w h : Int) : Surface :=
  applyMask (rectFillMask color x y w h) s

/-- `POST /init`: validate dimensions, allocate a white-filled canvas and
an empty element log under a fresh identifier.  The generated UUID is
passed in as `freshId`. -/
def init (reg : Registry) (freshId : String) (width height : Option Int) :
    Registry × Except ApiError InitResponse :=
  if jsFalsy width || jsFalsy height then
    (reg, .error .missingDimensions)
  else
    let w := width.getD 0
    let h := height.getD 0
    if w ≤ 0 || h ≤ 0 then
      (reg, .error .nonPositiveDimensions)
    else if w > 5000 || h > 5000 then
      (reg, .error .dimensionsTooLarge)
    else
      let canvas := fillRect (createCanvas w h) "#ffffff" 0 0 w h
      let sess : Session := { canvas := canvas, width := w, height := h, elements := [] }
      (setCanvas reg freshId sess, .ok { id := freshId, width := w, height := h })

/-- `POST /:id/add/rectangle`. -/
def addRectangle (reg : Registry) (id : String) (x y width height : Option Int)
    (color : Option String) (isFilled : Option Bool) :
    Registry × Except ApiError Unit :=
  match getCanvas reg id with
  | none => (reg, .error .canvasNotFound)
  | some sess =>
    if x.isNone || y.isNone || jsFalsy width || jsFalsy height then
      (reg, .error (.missingFields "x, y, width, and height are required"))
    else
      let xv := x.getD 0
      let yv := y.getD 0
      let wv := width.getD 0
      let hv := height.getD 0
      let c := color.getD "#000000"
      let f := isFilled.getD true
      let mask := if f then rectFillMask c xv yv wv hv else rectStrokeMask c xv yv wv hv
      let e : Element := .rectangle { x := xv, y := yv, width := wv, height := hv,
                                      color := c, isFilled := f }
      let sess' : Session := { sess with canvas := applyMask mask sess.canvas,
                                         elements := sess.elements ++ [e] }
      (setCanvas reg id sess', .ok ())

/-- `POST /:id/add/circle`. -/
def addCircle (reg : Registry) (id : String) (x y radius : Option Int)
    (color : Option String) (isFilled : Option Bool) :
    Registry × Except ApiError Unit :=
  match getCanvas reg id with
  | none => (reg, .error .canvasNotFound)
  | some sess =>
    if x.isNone || y.isNone || jsFalsy radius then
      (reg, .error (.missingFields "x, y, and radius are required"))
    else
      let xv := x.getD 0
      let yv := y.getD 0
      let rv := radius.getD 0
      let c := color.getD "#000000"
      let f := isFilled.getD true
      let mask := if f then circleFillMask c xv yv rv else circleStrokeMask c xv yv rv
      let e : Element := .circle { x := xv, y := yv, radius := rv, color := c, isFilled := f }
      let sess' : Session := { sess with canvas := applyMask mask sess.canvas,
                                         elements := sess.elements ++ [e] }
      (setCanvas reg id sess', .ok ())

/-- `POST /:id/add/text`. -/
def addText (lib : RenderLib) (reg : Registry) (id : String) (text : Option String)
    (x y : Option Int) (fontSize : Option Int) (fontFamily : Option String)
    (color : Option String) (align : Option String) :
    Registry × Except ApiError Unit :=
  match getCanvas reg id with
  | none => (reg, .error .canvasNotFound)
  | some sess =>
    if jsFalsyStr text || x.isNone || y.isNone then
      (reg, .error (.missingFields "text, x, and y are required"))
    else
      let t : TextElem := { text := text.getD "", x := x.getD 0, y := y.getD 0,
                            fontSize := fontSize.getD 16,
                            fontFamily := fontFamily.getD "Arial",
                            color := color.getD "#000000",
                            align := align.getD "left" }
      let sess' : Session := { sess with canvas := applyMask (lib.textPaint t) sess.canvas,
                                         elements := sess.elements ++ [Element.text t] }
      (setCanvas reg id sess', .ok ())

/-- `POST /:id/add/image` (URL-based).  `fetched` is the outcome of
`await loadImage(url)`: `none` when the fetch or decode rejects, in which
case the handler's catch block reports the load failure. -/
def addImage (lib : RenderLib) (reg : Registry) (id : String) (url : Option String)
    (x y width height : Option Int) (fetched : Option DecodedImage) :
    Registry × Except ApiError Unit :=
  match getCanvas reg id with
  | none => (reg, .error .canvasNotFound)
  | some sess =>
    if jsFalsyStr url || x.isNone || y.isNone then
      (reg, .error (.missingFields "url, x, and y are required"))
    else
      match fetched with
      | none => (reg, .error .imageLoadFailure)
      | some img =>
        let xv := x.getD 0
        let yv := y.getD 0
        let drawWidth := if jsFalsy width then img.width else width.getD 0
        let drawHeight := if jsFalsy height then img.height else height.getD 0
        let e : Element := .image { url := some (url.getD ""), x := xv, y := yv,
                                    width := drawWidth, height := drawHeight }
        let sess' : Session :=
          { sess with canvas := applyMask (lib.imagePaint img xv yv drawWidth drawHeight)
                                  sess.canvas,
                      elements := sess.elements ++ [e] }
        (setCanvas reg id sess', .ok ())

/-- `POST /:id/add/image-upload`.  `file` is `req.file` (`none` when no
file was sent); its payload is the outcome of `await loadImage(buffer)`.
The pushed element records position and draw box but no url. -/
def addImageUpload (lib : RenderLib) (reg : Registry) (id : String)
    (x y width height : Option Int) (file : Option (Option DecodedImage)) :
    Registry × Except ApiError Unit :=
  match getCanvas reg id with
  | none => (reg, .error .canvasNotFound)
  | some sess =>
    match file with
    | none => (reg, .error .missingFile)
    | some decoded =>
      match decoded with
      | none => (reg, .error .imageUploadFailure)
      | some img =>
        let xv := x.getD 0
        let yv := y.getD 0
        let drawWidth := if jsFalsy width then img.width else width.getD 0
        let drawHeight := if jsFalsy height then img.height else height.getD 0
        let e : Element := .image { url := none, x := xv, y := yv,
                                    width := drawWidth, height := drawHeight }
        let sess' : Session :=
          { sess with canvas := applyMask (lib.imagePaint img xv yv drawWidth drawHeight)
                                  sess.canvas,
                      elements := sess.elements ++ [e] }
        (setCanvas reg id sess', .ok ())

/-- The PNG snapshot `canvas.toBuffer` produces.  Modelled from the spec:
the encoding is lossless, so the snapshot is the raster itself. -/
structure Png where
  raster : Surface

/-- `canvas.toBuffer` — lossless snapshot of the surface. -/
def toPng (s : Surface) : Png :=
  { raster := s }

/-- The single-page PDF the export route builds: page size, compression
flag, descriptive metadata, and the PNG placed at the image box. -/
structure PdfDoc where
  pageWidth : Int
  pageHeight : Int
  compress : Bool
  title : String
  author : String
  creator : String
  image : Png
  imageX : Int
  imageY : Int
  imageWidth : Int
  imageHeight : Int

/-- `GET /:id/export/pdf`: snapshot the canvas as PNG and compose the
single-page document sized to the canvas dimensions. -/
def exportPdf (reg : Registry) (id : String) : Registry × Except ApiError PdfDoc :=
  match getCanvas reg id with
  | none => (reg, .error .canvasNotFound)
  | some sess =>
    let buffer := toPng sess.canvas
    (reg, .ok { pageWidth := sess.width, pageHeight := sess.height, compress := true,
                title := "Canvas Export", author := "Canvas Builder API",
                creator := "Canvas Builder API", image := buffer,
                imageX := 0, imageY := 0,
                imageWidth := sess.width, imageHeight := sess.height })

/-- `GET /:id/preview`: the current surface as a PNG. -/
def preview (reg : Registry) (id : String) : Registry × Except ApiError Png :=
  match getCanvas reg id with
  | none => (reg, .error .canvasNotFound)
  | some sess => (reg, .ok (toPng sess.canvas))

/-- `GET /:id/info`: dimensions, element count and the element log. -/
def infoRoute (reg : Registry) (id : String) : Registry × Except ApiError InfoResponse :=
  match getCanvas reg id with
  | none => (reg, .error .canvasNotFound)
  | some sess =>
    (reg, .ok { id := id, width := sess.width, height := sess.height,
                elementCount := sess.elements.length, elements := sess.elements })

/-- `DELETE /:id`: remove the registry entry. -/
def deleteCanvas (reg : Registry) (id : String) : Registry × Except ApiError Unit :=
  match getCanvas reg id with
  | none => (reg, .error .canvasNotFound)
  | some _ => (removeCanvas reg id, .ok ())

/-- One request against the router, with every external input (generated
UUID, fetch and decode outcomes) made explicit. -/
inductive Op
  | init (freshId : String) (width height : Option Int)
  | addRectangle (id : String) (x y width height : Option Int)
      (color : Option String) (isFilled : Option Bool)
  | addCircle (id : String) (x y radius : Option Int)
      (color : Option String) (isFilled : Option Bool)
  | addText (id : String) (text : Option String) (x y : Option Int)
      (fontSize : Option Int) (fontFamily : Option String)
      (color : Option String) (align : Option String)
  | addImage (id : String) (url : Option String) (x y width height : Option Int)
      (fetched : Option DecodedImage)
  | addImageUpload (id : String) (x y width height : Option Int)
      (file : Option (Option DecodedImage))
  | exportPdf (id : String)
  | preview (id : String)
  | info (id : String)
  | deleteCanvas (id : String)

/-- The registry after serving one request. -/
def step (lib : RenderLib) (op : Op) (reg : Registry) : Registry :=
  match op with
  | .init freshId width height => (init reg freshId width height).1
  | .addRectangle id x y width height color isFilled =>
      (addRectangle reg id x y width height color isFilled).1
  | .addCircle id x y radius color isFilled =>
      (addCircle reg id x y radius color isFilled).1
  | .addText id text x y fontSize fontFamily color align =>
      (addText lib reg id text x y fontSize fontFamily color align).1
  | .addImage id url x y width height fetched =>
      (addImage lib reg id url x y width height fetched).1
  | .addImageUpload id x y width height file =>
      (addImageUpload lib reg id x y width height file).1
  | .exportPdf id => (exportPdf reg id).1
  | .preview id => (preview reg id).1
  | .info id => (infoRoute reg id).1
  | .deleteCanvas id => (deleteCanvas reg id).1

/-- The registry after serving a sequence of requests. -/
def runOps (lib : RenderLib) (ops : List Op) (reg : Registry) : Registry :=
  ops.foldl (fun r op => step lib op r) reg

/-- Does this request create a session under exactly the identifier `id`?
(The UUIDs the router generates are fresh, so after a delete no later init
reuses the deleted identifier.) -/
def Op.isInitWith : Op → String → Bool
  | .init freshId _ _, id => freshId == id
  | _, _ => false

/-- The session identifier an identifier-bearing request addresses. -/
def Op.targets : Op → Option String
  | .init _ _ _ => none
  | .addRectangle id _ _ _ _ _ _ => some id
  | .addCircle id _ _ _ _ _ => some id
  | .addText id _ _ _ _ _ _ _ => some id
  | .addImage id _ _ _ _ _ _ => some id
  | .addImageUpload id _ _ _ _ _ => some id
  | .exportPdf id => some id
  | .preview id => some id
  | .info id => some id
  | .deleteCanvas id => some id

/-- For an add request that passes validation (and whose image source
decodes), the draw mask it applies to the surface and the resolved element
it appends to the log; `none` for non-add requests and failing adds.  The
effect is independent of the addressed session identifier. -/
def Op.addEffect (lib : RenderLib) : Op → Option (Mask × Element)
  | .addRectangle _ x y width height color isFilled =>
    if x.isNone || y.isNone || jsFalsy width || jsFalsy height then none
    else
      let xv := x.getD 0
      let yv := y.getD 0
      let wv := width.getD 0
      let hv := height.getD 0
      let c := color.getD "#000000"
      let f := isFilled.getD true
      some (if f then rectFillMask c xv yv wv hv else rectStrokeMask c xv yv wv hv,
            .rectangle { x := xv, y := yv, width := wv, height := hv,
                         color := c, isFilled := f })
  | .addCircle _ x y radius color isFilled =>
    if x.isNone || y.isNone || jsFalsy radius then none
    else
      let xv := x.getD 0
      let yv := y.getD 0
      let rv := radius.getD 0
      let c := color.getD "#000000"
      let f := isFilled.getD true
      some (if f then circleFillMask c xv yv rv else circleStrokeMask c xv yv rv,
            .circle { x := xv, y := yv, radius := rv, color := c, isFilled := f })
  | .addText _ text x y fontSize fontFamily color align =>
    if jsFalsyStr text || x.isNone || y.isNone then none
    else
      let t : TextElem := { text := text.getD "", x := x.getD 0, y := y.getD 0,
                            fontSize := fontSize.getD 16,
                            fontFamily := fontFamily.getD "Arial",
                            color := color.getD "#000000",
                            align := align.getD "left" }
      some (lib.textPaint t, .text t)
  | .addImage _ url x y width height fetched =>
    if jsFalsyStr url || x.isNone || y.isNone then none
    else
      match fetched with
      | none => none
      | some img =>
        let xv := x.getD 0
        let yv := y.getD 0
        let drawWidth := if jsFalsy width then img.width else width.getD 0
        let drawHeight := if jsFalsy height then img.height else height.getD 0
        some (lib.imagePaint img xv yv drawWidth drawHeight,
              .image { url := some (url.getD ""), x := xv, y := yv,
                       width := drawWidth, height := drawHeight })
  | .addImageUpload _ x y width height file =>
    match file with
    | some (some img) =>
      let xv := x.getD 0
      let yv := y.getD 0
      let drawWidth := if jsFalsy width then img.width else width.getD 0
      let drawHeight := if jsFalsy height then img.height else height.getD 0
      some (lib.imagePaint img xv yv drawWidth drawHeight,
            .image { url := none, x := xv, y := yv,
                     width := drawWidth, height := drawHeight })
    | _ => none
  | _ => none

/-- The constraint the spec places on init dimensions: both present,
positive, and at most 5000. -/
def validDims (width height : Option Int) : Prop :=
  ∃ w h, width = some w ∧ height = some h ∧
    0 < w ∧ w ≤ 5000 ∧ 0 < h ∧ h ≤ 5000

/-- The claim's per-variant field requirement on logged elements: shape
and text variants carry all their fields by construction; an image element
carries a source reference when its url is recorded. -/
def Element.hasSourceFields : Element → Bool
  | .image i => i.url.isSome
  | _ => true

/-- A rasteriser whose text and image primitives paint nothing: the
simplest concrete `RenderLib` instance, used for concrete runs. -/
def trivialLib : RenderLib :=
  { textPaint := fun _ _ _ => none,
    imagePaint := fun _ _ _ _ _ _ _ => none }

/-- The registry holding no sessions (server start). -/
def emptyRegistry : Registry :=
  fun _ => none

/-- A concrete 20×20 white session used for concrete runs. -/
def demoSession : Session :=
  { canvas := fillRect (createCanvas 20 20) "#ffffff" 0 0 20 20,
    width := 20, height := 20, elements := [] }

/-- A registry holding `demoSession` under id "a". -/
def demoReg : Registry :=
  setCanvas emptyRegistry "a" demoSession

/-- A second registry holding an identical fresh session under id "b". -/
def demoRegB : Registry :=
  setCanvas emptyRegistry "b" demoSession

/-- A concrete 4×3 decoded image used for concrete runs. -/
def demoImage : DecodedImage :=
  { width := 4, height := 3, pix := fun _ _ => Pixel.transparent }

/-- The document the export route produces for a given session: page size
equal to the session's dimensions, compression on, fixed metadata, and the
PNG snapshot placed at the origin covering the whole page. -/
def exportDoc (sess : Session) : PdfDoc :=
  { pageWidth := sess.width, pageHeight := sess.height, compress := true,
    title := "Canvas Export", author := "Canvas Builder API",
    creator := "Canvas Builder API", image := toPng sess.canvas,
    imageX := 0, imageY := 0,
    imageWidth := sess.width, imageHeight := sess.height }

/-- Two overlapping same-colored filled rectangles added to "a" in one
order. -/
def demoOrderRunA : Registry :=
  (addRectangle
    (addRectangle demoReg "a" (some 0) (some 0) (some 10) (some 10) none none).1
    "a" (some 5) (some 5) (some 10) (some 10) none none).1

/-- The same two rectangles added to "b" in the opposite order. -/
def demoOrderRunB : Registry :=
  (addRectangle
    (addRectangle demoRegB "b" (some 5) (some 5) (some 10) (some 10) none none).1
    "b" (some 0) (some 0) (some 10) (some 10) none none).1

/-- The first demo rectangle element (black 10×10 box at the origin). -/
def demoRect1 : Element :=
  .rectangle { x := 0, y := 0, width := 10, height := 10,
               color := "#000000", isFilled := true }

/-- The second demo rectangle element (black 10×10 box at (5,5)),
overlapping the first. -/
def demoRect2 : Element :=
  .rectangle { x := 5, y := 5, width := 10, height := 10,
               color := "#000000", isFilled := true }

/-- Adding the first demo rectangle to session "a". -/
def demoOp1A : Op := .addRectangle "a" (some 0) (some 0) (some 10) (some 10) none none

/-- Adding the second demo rectangle to session "a". -/
def demoOp2A : Op := .addRectangle "a" (some 5) (some 5) (some 10) (some 10) none none

/-- Adding the first demo rectangle to session "b". -/
def demoOp1B : Op := .addRectangle "b" (some 0) (some 0) (some 10) (some 10) none none

/-- Adding the second demo rectangle to session "b". -/
def demoOp2B : Op := .addRectangle "b" (some 5) (some 5) (some 10) (some 10) none none

/-- The session a valid `init` with dimensions 800×600 stores. -/
def initDemoSession : Session :=
  { canvas := fillRect (createCanvas 800 600) "#ffffff" 0 0 800 600,
    width := 800, height := 600, elements := [] }

/-- The member names an object literal inherits from `Object.prototype`:
for these key strings `canvases[id]` yields a truthy inherited value even
when no session is stored under the id. -/
def objectProtoKeys : List String :=
  ["constructor", "hasOwnProperty", "isPrototypeOf", "propertyIsEnumerable",
   "toLocaleString", "toString", "valueOf", "__proto__",
   "__defineGetter__", "__defineSetter__", "__lookupGetter__", "__lookupSetter__"]

/-- JavaScript truthiness of the property access `canvases[id]`: truthy
for a stored session (own property) and for the inherited
`Object.prototype` members; this — not own-property presence — is what
the guard `if (!canvases[id])` tests. -/
def canvasesTruthy (reg : Registry) (id : String) : Bool :=
  (getCanvas reg id).isSome || objectProtoKeys.contains id

/-- `POST /:id/add/rectangle` with full JavaScript lookup semantics: the
guard tests truthiness of `canvases[id]`, so an id naming an inherited
`Object.prototype` member passes it; after field validation the handler
then throws on `canvases[id].canvas.getContext` and the catch block sends
the 500 response. -/
def addRectangleJs (reg : Registry) (id : String) (x y width height : Option Int)
    (color : Option String) (isFilled : Option Bool) :
    Registry × Except ApiError Unit :=
  if canvasesTruthy reg id = false then (reg, .error .canvasNotFound)
  else if x.isNone || y.isNone || jsFalsy width || jsFalsy height then
    (reg, .error (.missingFields "x, y, width, and height are required"))
  else
    match getCanvas reg id with
    | none => (reg, .error (.internalError "Failed to add rectangle"))
    | some sess =>
      let xv := x.getD 0
      let yv := y.getD 0
      let wv := width.getD 0
      let hv := height.getD 0
      let c := color.getD "#000000"
      let f := isFilled.getD true
      let mask := if f then rectFillMask c xv yv wv hv else rectStrokeMask c xv yv wv hv
      let e : Element := .rectangle { x := xv, y := yv, width := wv, height := hv,
                                      color := c, isFilled := f }
      let sess' : Session := { sess with canvas := applyMask mask sess.canvas,
                                         elements := sess.elements ++ [e] }
      (setCanvas reg id sess', .ok ())

/-- `POST /:id/add/circle` with full JavaScript lookup semantics. -/
def addCircleJs (reg : Registry) (id : String) (x y radius : Option Int)
    (color : Option String) (isFilled : Option Bool) :
    Registry × Except ApiError Unit :=
  if canvasesTruthy reg id = false then (reg, .error .canvasNotFound)
  else if x.isNone || y.isNone || jsFalsy radius then
    (reg, .error (.missingFields "x, y, and radius are required"))
  else
    match getCanvas reg id with
    | none => (reg, .error (.internalError "Failed to add circle"))
    | some sess =>
      let xv := x.getD 0
      let yv := y.getD 0
      let rv := radius.getD 0
      let c := color.getD "#000000"
      let f := isFilled.getD true
      let mask := if f then circleFillMask c xv yv rv else circleStrokeMask c xv yv rv
      let e : Element := .circle { x := xv, y := yv, radius := rv, color := c,
                                   isFilled := f }
      let sess' : Session := { sess with canvas := applyMask mask sess.canvas,
                                         elements := sess.elements ++ [e] }
      (setCanvas reg id sess', .ok ())

/-- `POST /:id/add/text` with full JavaScript lookup semantics. -/
def addTextJs (lib : RenderLib) (reg : Registry) (id : String) (text : Option String)
    (x y : Option Int) (fontSize : Option Int) (fontFamily : Option String)
    (color : Option String) (align : Option String) :
    Registry × Except ApiError Unit :=
  if canvasesTruthy reg id = false then (reg, .error .canvasNotFound)
  else if jsFalsyStr text || x.isNone || y.isNone then
    (reg, .error (.missingFields "text, x, and y are required"))
  else
    match getCanvas reg id with
    | none => (reg, .error (.internalError "Failed to add text"))
    | some sess =>
      let t : TextElem := { text := text.getD "", x := x.getD 0, y := y.getD 0,
                            fontSize := fontSize.getD 16,
                            fontFamily := fontFamily.getD "Arial",
                            color := color.getD "#000000",
                            align := align.getD "left" }
      let sess' : Session := { sess with canvas := applyMask (lib.textPaint t) sess.canvas,
                                         elements := sess.elements ++ [Element.text t] }
      (setCanvas reg id sess', .ok ())

/-- `POST /:id/add/image` with full JavaScript lookup semantics.  For an
inherited-member id the fetch still runs first; whether it rejects or the
later `ctx` access throws, the shared catch block sends the same
`Failed to load or add image` response. -/
def addImageJs (lib : RenderLib) (reg : Registry) (id : String) (url : Option String)
    (x y width height : Option Int) (fetched : Option DecodedImage) :
    Registry × Except ApiError Unit :=
  if canvasesTruthy reg id = false then (reg, .error .canvasNotFound)
  else if jsFalsyStr url || x.isNone || y.isNone then
    (reg, .error (.missingFields "url, x, and y are required"))
  else
    match fetched with
    | none => (reg, .error .imageLoadFailure)
    | some img =>
      match getCanvas reg id with
      | none => (reg, .error .imageLoadFailure)
      | some sess =>
        let xv := x.getD 0
        let yv := y.getD 0
        let drawWidth := if jsFalsy width then img.width else width.getD 0
        let drawHeight := if jsFalsy height then img.height else height.getD 0
        let e : Element := .image { url := some (url.getD ""), x := xv, y := yv,
                                    width := drawWidth, height := drawHeight }
        let sess' : Session :=
          { sess with canvas := applyMask (lib.imagePaint img xv yv drawWidth drawHeight)
                                  sess.canvas,
                      elements := sess.elements ++ [e] }
        (setCanvas reg id sess', .ok ())

/-- `POST /:id/add/image-upload` with full JavaScript lookup semantics:
for an inherited-member id the decode runs, then the `ctx` access throws
into the same catch as a decode failure. -/
def addImageUploadJs (lib : RenderLib) (reg : Registry) (id : String)
    (x y width height : Option Int) (file : Option (Option DecodedImage)) :
    Registry × Except ApiError Unit :=
  if canvasesTruthy reg id = false then (reg, .error .canvasNotFound)
  else
    match file with
    | none => (reg, .error .missingFile)
    | some decoded =>
      match decoded with
      | none => (reg, .error .imageUploadFailure)
      | some img =>
        match getCanvas reg id with
        | none => (reg, .error .imageUploadFailure)
        | some sess =>
          let xv := x.getD 0
          let yv := y.getD 0
          let drawWidth := if jsFalsy width then img.width else width.getD 0
          let drawHeight := if jsFalsy height then img.height else height.getD 0
          let e : Element := .image { url := none, x := xv, y := yv,
                                      width := drawWidth, height := drawHeight }
          let sess' : Session :=
            { sess with canvas := applyMask (lib.imagePaint img xv yv drawWidth drawHeight)
                                    sess.canvas,
                        elements := sess.elements ++ [e] }
          (setCanvas reg id sess', .ok ())

/-- `GET /:id/export/pdf` with full JavaScript lookup semantics: for an
inherited-member id the destructured `canvas` is undefined and
`canvas.toBuffer` throws into the catch block. -/
def exportPdfJs (reg : Registry) (id : String) : Registry × Except ApiError PdfDoc :=
  if canvasesTruthy reg id = false then (reg, .error .canvasNotFound)
  else
    match getCanvas reg id with
    | none => (reg, .error (.internalError "Failed to export PDF"))
    | some sess => (reg, .ok (exportDoc sess))

/-- `GET /:id/preview` with full JavaScript lookup semantics. -/
def previewJs (reg : Registry) (id : String) : Registry × Except ApiError Png :=
  if canvasesTruthy reg id = false then (reg, .error .canvasNotFound)
  else
    match getCanvas reg id with
    | none => (reg, .error (.internalError "Failed to get preview"))
    | some sess => (reg, .ok (toPng sess.canvas))

/-- `GET /:id/info` with full JavaScript lookup semantics: for an
inherited-member id the destructured `elements` is undefined and
`elements.length` throws into the catch block. -/
def infoRouteJs (reg : Registry) (id : String) :
    Registry × Except ApiError InfoResponse :=
  if canvasesTruthy reg id = false then (reg, .error .canvasNotFound)
  else
    match getCanvas reg id with
    | none => (reg, .error (.internalError "Failed to get canvas info"))
    | some sess =>
      (reg, .ok { id := id, width := sess.width, height := sess.height,
                  elementCount := sess.elements.length, elements := sess.elements })

/-- `DELETE /:id` with full JavaScript lookup semantics: an
inherited-member id passes the guard, `delete canvases[id]` removes no
own property, and the route still responds with the success message. -/
def deleteCanvasJs (reg : Registry) (id : String) : Registry × Except ApiError Unit :=
  if canvasesTruthy reg id = false then (reg, .error .canvasNotFound)
  else (removeCanvas reg id, .ok ())

theorem getCanvas_setCanvas (reg : Registry) (id k : String) (sess : Session) :
    getCanvas (setCanvas reg id sess) k = if k = id then some sess else getCanvas reg k :=
  rfl

theorem getCanvas_removeCanvas (reg : Registry) (id k : String) :
    getCanvas (removeCanvas reg id) k = if k = id then none else getCanvas reg k :=
  rfl

@[simp]
theorem applyMask_width (m : Mask) (s : Surface) : (applyMask m s).width = s.width :=
  rfl

@[simp]
theorem applyMask_height (m : Mask) (s : Surface) : (applyMask m s).height = s.height :=
  rfl

/-- An identifier absent from the registry stays absent across any request
that is not an init generating exactly that identifier. -/
theorem getCanvas_step_none (lib : RenderLib) (op : Op) (reg : Registry) (id : String)
    (h : getCanvas reg id = none) (hni : op.isInitWith id = false) :
    getCanvas (step lib op reg) id = none := by
  cases op with
  | init freshId width height =>
    have hne : id ≠ freshId := fun he => by
      subst he; simp [Op.isInitWith] at hni
    simp only [step, init]
    split
    · exact h
    · split
      · exact h
      · split
        · exact h
        · rw [getCanvas_setCanvas, if_neg hne]; exact h
  | addRectangle id2 x y width height color isFilled =>
    simp only [step, addRectangle]
    cases h2 : getCanvas reg id2 with
    | none => exact h
    | some sess =>
      simp only
      split
      · exact h
      · rw [getCanvas_setCanvas]
        split
        · next he => rw [he, h2] at h; cases h
        · exact h
  | addCircle id2 x y radius color isFilled =>
    simp only [step, addCircle]
    cases h2 : getCanvas reg id2 with
    | none => exact h
    | some sess =>
      simp only
      split
      · exact h
      · rw [getCanvas_setCanvas]
        split
        · next he => rw [he, h2] at h; cases h
        · exact h
  | addText id2 text x y fontSize fontFamily color align =>
    simp only [step, addText]
    cases h2 : getCanvas reg id2 with
    | none => exact h
    | some sess =>
      simp only
      split
      · exact h
      · rw [getCanvas_setCanvas]
        split
        · next he => rw [he, h2] at h; cases h
        · exact h
  | addImage id2 url x y width height fetched =>
    simp only [step, addImage]
    cases h2 : getCanvas reg id2 with
    | none => exact h
    | some sess =>
      simp only
      split
      · exact h
      · cases fetched with
        | none => exact h
        | some img =>
          rw [getCanvas_setCanvas]
          split
          · next he => rw [he, h2] at h; cases h
          · exact h
  | addImageUpload id2 x y width height file =>
    simp only [step, addImageUpload]
    cases h2 : getCanvas reg id2 with
    | none => exact h
    | some sess =>
      cases file with
      | none => exact h
      | some decoded =>
        cases decoded with
        | none => exact h
        | some img =>
          rw [getCanvas_setCanvas]
          split
          · next he => rw [he, h2] at h; cases h
          · exact h
  | exportPdf id2 =>
    simp only [step, exportPdf]
    cases h2 : getCanvas reg id2 with
    | none => exact h
    | some sess => exact h
  | preview id2 =>
    simp only [step, preview]
    cases h2 : getCanvas reg id2 with
    | none => exact h
    | some sess => exact h
  | info id2 =>
    simp only [step, infoRoute]
    cases h2 : getCanvas reg id2 with
    | none => exact h
    | some sess => exact h
  | deleteCanvas id2 =>
    simp only [step, deleteCanvas]
    cases h2 : getCanvas reg id2 with
    | none => exact h
    | some sess =>
      rw [getCanvas_removeCanvas]
      split
      · rfl
      · exact h

/-- A surviving session's declared and surface dimensions are unchanged by
any single request that is not an init reusing its identifier. -/
theorem step_dims (lib : RenderLib) (op : Op) (reg : Registry) (id : String)
    (sess sess' : Session)
    (h : getCanvas reg id = some sess) (hni : op.isInitWith id = false)
    (h' : getCanvas (step lib op reg) id = some sess') :
    sess'.width = sess.width ∧ sess'.height = sess.height ∧
    sess'.canvas.width = sess.canvas.width ∧ sess'.canvas.height = sess.canvas.height := by
  have same : ∀ {t t' : Session}, some t = some t' →
      t'.width = t.width ∧ t'.height = t.height ∧
      t'.canvas.width = t.canvas.width ∧ t'.canvas.height = t.canvas.height := by
    intro t t' e
    cases Option.some.inj e
    exact ⟨rfl, rfl, rfl, rfl⟩
  cases op with
  | init freshId width height =>
    have hne : id ≠ freshId := fun he => by
      subst he; simp [Op.isInitWith] at hni
    simp only [step, init] at h'
    split at h'
    · rw [h] at h'; exact same h'
    · split at h'
      · rw [h] at h'; exact same h'
      · split at h'
        · rw [h] at h'; exact same h'
        · rw [getCanvas_setCanvas, if_neg hne, h] at h'
          exact same h'
  | addRectangle id2 x y width height color isFilled =>
    simp only [step, addRectangle] at h'
    cases h2 : getCanvas reg id2 with
    | none => rw [h2] at h'; rw [h] at h'; exact same h'
    | some sess2 =>
      rw [h2] at h'
      simp only at h'
      split at h'
      · rw [h] at h'; exact same h'
      · rw [getCanvas_setCanvas] at h'
        split at h'
        · next he =>
          subst he
          rw [h] at h2
          cases Option.some.inj h2
          cases Option.some.inj h'
          exact ⟨rfl, rfl, rfl, rfl⟩
        · rw [h] at h'; exact same h'
  | addCircle id2 x y radius color isFilled =>
    simp only [step, addCircle] at h'
    cases h2 : getCanvas reg id2 with
    | none => rw [h2] at h'; rw [h] at h'; exact same h'
    | some sess2 =>
      rw [h2] at h'
      simp only at h'
      split at h'
      · rw [h] at h'; exact same h'
      · rw [getCanvas_setCanvas] at h'
        split at h'
        · next he =>
          subst he
          rw [h] at h2
          cases Option.some.inj h2
          cases Option.some.inj h'
          exact ⟨rfl, rfl, rfl, rfl⟩
        · rw [h] at h'; exact same h'
  | addText id2 text x y fontSize fontFamily color align =>
    simp only [step, addText] at h'
    cases h2 : getCanvas reg id2 with
    | none => rw [h2] at h'; rw [h] at h'; exact same h'
    | some sess2 =>
      rw [h2] at h'
      simp only at h'
      split at h'
      · rw [h] at h'; exact same h'
      · rw [getCanvas_setCanvas] at h'
        split at h'
        · next he =>
          subst he
          rw [h] at h2
          cases Option.some.inj h2
          cases Option.some.inj h'
          exact ⟨rfl, rfl, rfl, rfl⟩
        · rw [h] at h'; exact same h'
  | addImage id2 url x y width height fetched =>
    simp only [step, addImage] at h'
    cases h2 : getCanvas reg id2 with
    | none => rw [h2] at h'; rw [h] at h'; exact same h'
    | some sess2 =>
      rw [h2] at h'
      simp only at h'
      split at h'
      · rw [h] at h'; exact same h'
      · cases fetched with
        | none => rw [h] at h'; exact same h'
        | some img =>
          rw [getCanvas_setCanvas] at h'
          split at h'
          · next he =>
            subst he
            rw [h] at h2
            cases Option.some.inj h2
            cases Option.some.inj h'
            exact ⟨rfl, rfl, rfl, rfl⟩
          · rw [h] at h'; exact same h'
  | addImageUpload id2 x y width height file =>
    simp only [step, addImageUpload] at h'
    cases h2 : getCanvas reg id2 with
    | none => rw [h2] at h'; rw [h] at h'; exact same h'
    | some sess2 =>
      rw [h2] at h'
      cases file with
      | none => rw [h] at h'; exact same h'
      | some decoded =>
        cases decoded with
        | none => rw [h] at h'; exact same h'
        | some img =>
          rw [getCanvas_setCanvas] at h'
          split at h'
          · next he =>
            subst he
            rw [h] at h2
            cases Option.some.inj h2
            cases Option.some.inj h'
            exact ⟨rfl, rfl, rfl, rfl⟩
          · rw [h] at h'; exact same h'
  | exportPdf id2 =>
    simp only [step, exportPdf] at h'
    cases h2 : getCanvas reg id2 with
    | none => rw [h2] at h'; rw [h] at h'; exact same h'
    | some sess2 => rw [h2] at h'; rw [h] at h'; exact same h'
  | preview id2 =>
    simp only [step, preview] at h'
    cases h2 : getCanvas reg id2 with
    | none => rw [h2] at h'; rw [h] at h'; exact same h'
    | some sess2 => rw [h2] at h'; rw [h] at h'; exact same h'
  | info id2 =>
    simp only [step, infoRoute] at h'
    cases h2 : getCanvas reg id2 with
    | none => rw [h2] at h'; rw [h] at h'; exact same h'
    | some sess2 => rw [h2] at h'; rw [h] at h'; exact same h'
  | deleteCanvas id2 =>
    simp only [step, deleteCanvas] at h'
    cases h2 : getCanvas reg id2 with
    | none => rw [h2] at h'; rw [h] at h'; exact same h'
    | some sess2 =>
      rw [h2] at h'
      rw [getCanvas_removeCanvas] at h'
      split at h'
      · cases h'
      · rw [h] at h'; exact same h'

theorem runOps_cons (lib : RenderLib) (op : Op) (ops : List Op) (reg : Registry) :
    runOps lib (op :: ops) reg = runOps lib ops (step lib op reg) :=
  rfl

/-- An absent identifier stays absent across any request sequence that
never inits it. -/
theorem runOps_none (lib : RenderLib) (ops : List Op) (reg : Registry) (id : String)
    (h : getCanvas reg id = none)
    (hni : ∀ op ∈ ops, op.isInitWith id = false) :
    getCanvas (runOps lib ops reg) id = none := by
  induction ops generalizing reg with
  | nil => exact h
  | cons op rest ih =>
    rw [runOps_cons]
    exact ih (step lib op reg)
      (getCanvas_step_none lib op reg id h (hni op (List.mem_cons_self op rest)))
      (fun o ho => hni o (List.mem_cons_of_mem op ho))

/-- A surviving session's declared and surface dimensions are unchanged by
any request sequence that never inits its identifier. -/
theorem runOps_dims (lib : RenderLib) (ops : List Op) (reg : Registry) (id : String)
    (sess sess' : Session)
    (h : getCanvas reg id = some sess)
    (hni : ∀ op ∈ ops, op.isInitWith id = false)
    (h' : getCanvas (runOps lib ops reg) id = some sess') :
    sess'.width = sess.width ∧ sess'.height = sess.height ∧
    sess'.canvas.width = sess.canvas.width ∧ sess'.canvas.height = sess.canvas.height := by
  induction ops generalizing reg sess with
  | nil =>
    have h0 : getCanvas reg id = some sess' := h'
    rw [h] at h0
    cases Option.some.inj h0
    exact ⟨rfl, rfl, rfl, rfl⟩
  | cons op rest ih =>
    rw [runOps_cons] at h'
    cases h1 : getCanvas (step lib op reg) id with
    | none =>
      rw [runOps_none lib rest (step lib op reg) id h1
        (fun o ho => hni o (List.mem_cons_of_mem op ho))] at h'
      cases h'
    | some sess1 =>
      have d1 := step_dims lib op reg id sess sess1 h (hni op (List.mem_cons_self op rest)) h1
      have d2 := ih (step lib op reg) sess1 h1 (fun o ho => hni o (List.mem_cons_of_mem op ho)) h'
      exact ⟨d2.1.trans d1.1, d2.2.1.trans d1.2.1,
             d2.2.2.1.trans d1.2.2.1, d2.2.2.2.trans d1.2.2.2⟩

/-- A successful add is exactly: apply its draw mask to the addressed
session's surface and append its resolved element to the log. -/
theorem step_of_addEffect (lib : RenderLib) (op : Op) (reg : Registry) (id : String)
    (m : Mask) (e : Element) (sess : Session)
    (hid : op.targets = some id) (heff : op.addEffect lib = some (m, e))
    (hsess : getCanvas reg id = some sess) :
    step lib op reg =
      setCanvas reg id { sess with canvas := applyMask m sess.canvas,
                                   elements := sess.elements ++ [e] } := by
  cases op with
  | init freshId width height => cases heff
  | addRectangle id2 x y width height color isFilled =>
    cases Option.some.inj hid
    simp only [Op.addEffect] at heff
    split at heff
    · cases heff
    · cases Option.some.inj heff
      simp only [step, addRectangle, hsess]
      split
      · next hc => simp_all
      · rfl
  | addCircle id2 x y radius color isFilled =>
    cases Option.some.inj hid
    simp only [Op.addEffect] at heff
    split at heff
    · cases heff
    · cases Option.some.inj heff
      simp only [step, addCircle, hsess]
      split
      · next hc => simp_all
      · rfl
  | addText id2 text x y fontSize fontFamily color align =>
    cases Option.some.inj hid
    simp only [Op.addEffect] at heff
    split at heff
    · cases heff
    · cases Option.some.inj heff
      simp only [step, addText, hsess]
      split
      · next hc => simp_all
      · rfl
  | addImage id2 url x y width height fetched =>
    cases Option.some.inj hid
    simp only [Op.addEffect] at heff
    split at heff
    · cases heff
    · cases fetched with
      | none => cases heff
      | some img =>
        cases Option.some.inj heff
        simp only [step, addImage, hsess]
        split
        · next hc => simp_all
        · rfl
  | addImageUpload id2 x y width height file =>
    cases Option.some.inj hid
    cases file with
    | none => cases heff
    | some decoded =>
      cases decoded with
      | none => cases heff
      | some img =>
        simp only [Op.addEffect] at heff
        cases Option.some.inj heff
        simp only [step, addImageUpload, hsess]
  | exportPdf id2 => cases heff
  | preview id2 => cases heff
  | info id2 => cases heff
  | deleteCanvas id2 => cases heff

/-- C1: for every session, export is a pure read — it changes neither the
registry nor the session's surface, log or dimensions — and calling it
twice with nothing in between yields the very same document, whose raster
content is the session's surface snapshot on a page of its dimensions. -/
theorem export_pure_and_deterministic (reg : Registry) (id : String) (sess : Session)
    (h : getCanvas reg id = some sess) :
    (exportPdf reg id).1 = reg ∧
    getCanvas (exportPdf reg id).1 id = some sess ∧
    exportPdf (exportPdf reg id).1 id = exportPdf reg id ∧
    ∃ doc : PdfDoc,
      (exportPdf reg id).2 = .ok doc ∧
      (exportPdf (exportPdf reg id).1 id).2 = .ok doc ∧
      doc.image.raster = sess.canvas ∧
      doc.pageWidth = sess.width ∧ doc.pageHeight = sess.height ∧
      doc.imageX = 0 ∧ doc.imageY = 0 ∧
      doc.imageWidth = sess.width ∧ doc.imageHeight = sess.height := by
  have he : exportPdf reg id = (reg, .ok (exportDoc sess)) := by
    simp [exportPdf, exportDoc, h]
  refine ⟨?_, ?_, ?_, exportDoc sess, ?_, ?_, rfl, rfl, rfl, rfl, rfl, rfl, rfl⟩ <;>
    simp [he, h]

theorem export_pure_and_deterministic_witness :
    (exportPdf demoReg "a").1 = demoReg ∧
    exportPdf (exportPdf demoReg "a").1 "a" = exportPdf demoReg "a" := by
  have t := export_pure_and_deterministic demoReg "a" demoSession rfl
  exact ⟨t.1, t.2.2.1⟩

/-- C2: an add/image call on an existing session whose URL fetch or decode
fails reports the image-load failure and leaves the registry — hence the
session's surface, element log and element count — exactly as before. -/
theorem addImage_failure_atomic (lib : RenderLib) (reg : Registry) (id : String)
    (sess : Session) (u : String) (x y : Int) (width height : Option Int)
    (h : getCanvas reg id = some sess) (hu : u ≠ "") :
    addImage lib reg id (some u) (some x) (some y) width height none
      = (reg, .error .imageLoadFailure) ∧
    getCanvas (addImage lib reg id (some u) (some x) (some y) width height none).1 id
      = some sess ∧
    (infoRoute (addImage lib reg id (some u) (some x) (some y) width height none).1 id).2
      = .ok { id := id, width := sess.width, height := sess.height,
              elementCount := sess.elements.length, elements := sess.elements } := by
  have he : addImage lib reg id (some u) (some x) (some y) width height none
      = (reg, .error .imageLoadFailure) := by
    simp [addImage, h, jsFalsyStr, hu]
  refine ⟨he, ?_, ?_⟩ <;> simp [he, h, infoRoute]

theorem addImage_failure_atomic_witness :
    addImage trivialLib demoReg "a" (some "http://nope.example/x.png") (some 1) (some 2)
        none none none
      = (demoReg, .error .imageLoadFailure) :=
  (addImage_failure_atomic trivialLib demoReg "a" demoSession "http://nope.example/x.png"
    1 2 none none rfl (by decide)).1

/-- Whenever truthiness of `canvases[id]` coincides with own-entry
presence — that is, at every id that is stored, and at every absent id
that does not name an inherited `Object.prototype` member — the
JS-lookup route models coincide with the base route models the other
claims are stated over. -/
theorem routesJs_agree_off_proto (lib : RenderLib) (reg : Registry) (id : String)
    (hagree : canvasesTruthy reg id = (getCanvas reg id).isSome) :
    (∀ x y width height color isFilled,
      addRectangleJs reg id x y width height color isFilled
        = addRectangle reg id x y width height color isFilled) ∧
    (∀ x y radius color isFilled,
      addCircleJs reg id x y radius color isFilled
        = addCircle reg id x y radius color isFilled) ∧
    (∀ text x y fontSize fontFamily color align,
      addTextJs lib reg id text x y fontSize fontFamily color align
        = addText lib reg id text x y fontSize fontFamily color align) ∧
    (∀ url x y width height fetched,
      addImageJs lib reg id url x y width height fetched
        = addImage lib reg id url x y width height fetched) ∧
    (∀ x y width height file,
      addImageUploadJs lib reg id x y width height file
        = addImageUpload lib reg id x y width height file) ∧
    exportPdfJs reg id = exportPdf reg id ∧
    previewJs reg id = preview reg id ∧
    infoRouteJs reg id = infoRoute reg id ∧
    deleteCanvasJs reg id = deleteCanvas reg id := by
  cases hoc : getCanvas reg id with
  | none =>
    rw [hoc] at hagree
    refine ⟨?_, ?_, ?_, ?_, ?_, ?_, ?_, ?_, ?_⟩ <;>
      simp [addRectangleJs, addRectangle, addCircleJs, addCircle, addTextJs, addText,
        addImageJs, addImage, addImageUploadJs, addImageUpload, exportPdfJs, exportPdf,
        previewJs, preview, infoRouteJs, infoRoute, deleteCanvasJs, deleteCanvas,
        hoc, hagree]
  | some sess =>
    rw [hoc] at hagree
    refine ⟨?_, ?_, ?_, ?_, ?_, ?_, ?_, ?_, ?_⟩ <;>
      simp [addRectangleJs, addRectangle, addCircleJs, addCircle, addTextJs, addText,
        addImageJs, addImage, addImageUploadJs, addImageUpload, exportPdfJs, exportPdf,
        exportDoc, previewJs, preview, infoRouteJs, infoRoute, deleteCanvasJs,
        deleteCanvas, hoc, hagree]

/-- C6 (code bug): the identifier "constructor" is not present in the
registry, yet JavaScript property lookup finds the inherited
`Object.prototype.constructor`, so the guard `if (!canvases[id])` does
not fire: delete responds with the success message (removing nothing and
leaving the stored session intact), while preview, info, export and the
five add routes respond with their catch-block 500 errors — none of the
nine identifier-bearing operations fails with the not-found error the
claim requires for every absent identifier. -/
theorem proto_key_guard_bypass :
    getCanvas demoReg "constructor" = none ∧
    canvasesTruthy demoReg "constructor" = true ∧
    (deleteCanvasJs demoReg "constructor").2 = .ok () ∧
    getCanvas (deleteCanvasJs demoReg "constructor").1 "a" = some demoSession ∧
    getCanvas (deleteCanvasJs demoReg "constructor").1 "constructor" = none ∧
    (previewJs demoReg "constructor").2
      = .error (.internalError "Failed to get preview") ∧
    (infoRouteJs demoReg "constructor").2
      = .error (.internalError "Failed to get canvas info") ∧
    (exportPdfJs demoReg "constructor").2
      = .error (.internalError "Failed to export PDF") ∧
    (addRectangleJs demoReg "constructor" (some 1) (some 1) (some 5) (some 5)
        none none).2 = .error (.internalError "Failed to add rectangle") ∧
    (addCircleJs demoReg "constructor" (some 1) (some 1) (some 5) none none).2
      = .error (.internalError "Failed to add circle") ∧
    (addTextJs trivialLib demoReg "constructor" (some "hi") (some 1) (some 1)
        none none none none).2 = .error (.internalError "Failed to add text") ∧
    (addImageJs trivialLib demoReg "constructor" (some "http://x.example/y.png")
        (some 1) (some 1) none none (some demoImage)).2 = .error .imageLoadFailure ∧
    (addImageUploadJs trivialLib demoReg "constructor" none none none none
        (some (some demoImage))).2 = .error .imageUploadFailure := by
  refine ⟨rfl, rfl, rfl, rfl, rfl, rfl, rfl, rfl, rfl, rfl, rfl, rfl, rfl⟩

/-- A successful init in one equation: the white-filled session is stored
under the fresh identifier and the response echoes the dimensions. -/
theorem init_success_eq (reg : Registry) (freshId : String) (w h : Int)
    (hw : 0 < w) (hw5 : w ≤ 5000) (hh : 0 < h) (hh5 : h ≤ 5000) :
    init reg freshId (some w) (some h) =
      (setCanvas reg freshId
        { canvas := fillRect (createCanvas w h) "#ffffff" 0 0 w h,
          width := w, height := h, elements := [] },
       .ok { id := freshId, width := w, height := h }) := by
  have h1 : (jsFalsy (some w) || jsFalsy (some h)) = false := by
    simp [jsFalsy]
    omega
  have h2 : ¬ (w ≤ 0 ∨ h ≤ 0) := by omega
  have h3 : ¬ (5000 < w ∨ 5000 < h) := by omega
  simp [init, h1, h2, h3]

/-- C5: every init request violating the dimension constraints (width and
height present, positive and at most 5000) fails with one of the
invalid-dimension errors and leaves the registry unchanged. -/
theorem init_invalid_dimensions (reg : Registry) (freshId : String)
    (width height : Option Int) (hbad : ¬ validDims width height) :
    (init reg freshId width height).1 = reg ∧
    ∃ e, (init reg freshId width height).2 = .error e ∧
      e.isInvalidDimensions = true := by
  simp only [init]
  split
  · exact ⟨rfl, .missingDimensions, rfl, rfl⟩
  · next hfal =>
    split
    · exact ⟨rfl, .nonPositiveDimensions, rfl, rfl⟩
    · next hpos =>
      split
      · exact ⟨rfl, .dimensionsTooLarge, rfl, rfl⟩
      · next hbig =>
        exfalso
        apply hbad
        cases hwv : width with
        | none => rw [hwv] at hfal; simp [jsFalsy] at hfal
        | some w =>
          cases hhv : height with
          | none => rw [hhv] at hfal; simp [jsFalsy] at hfal
          | some h =>
            rw [hwv, hhv] at hfal hpos hbig
            simp [jsFalsy] at hfal hpos hbig
            exact ⟨w, h, rfl, rfl, by omega, by omega, by omega, by omega⟩

theorem init_invalid_dimensions_witness :
    ((init demoReg "f" (some 0) (some 600)).1 = demoReg ∧
      ∃ e, (init demoReg "f" (some 0) (some 600)).2 = .error e ∧
        e.isInvalidDimensions = true) ∧
    ((init demoReg "g" (some 800) (some 6000)).1 = demoReg ∧
      ∃ e, (init demoReg "g" (some 800) (some 6000)).2 = .error e ∧
        e.isInvalidDimensions = true) := by
  constructor
  · exact init_invalid_dimensions demoReg "f" (some 0) (some 600) (by
      rintro ⟨w, h, hw, hh, hwpos, _⟩
      cases hw
      exact absurd hwpos (by decide))
  · exact init_invalid_dimensions demoReg "g" (some 800) (some 6000) (by
      rintro ⟨w, h, hw, hh, _, _, _, hh5⟩
      cases hh
      exact absurd hh5 (by decide))

/-- C7: deleting an existing session succeeds, removes the entry, makes a
second delete fail with the not-found error, and the identifier is never
resolvable across any later request sequence (the router's fresh UUIDs
never reuse a deleted identifier). -/
theorem delete_then_unresolvable (lib : RenderLib) (reg : Registry) (id : String)
    (sess : Session) (h : getCanvas reg id = some sess) :
    (deleteCanvas reg id).2 = .ok () ∧
    getCanvas (deleteCanvas reg id).1 id = none ∧
    deleteCanvas (deleteCanvas reg id).1 id
      = ((deleteCanvas reg id).1, .error .canvasNotFound) ∧
    (∀ ops : List Op, (∀ op ∈ ops, op.isInitWith id = false) →
      getCanvas (runOps lib ops (deleteCanvas reg id).1) id = none) := by
  have hdel : (deleteCanvas reg id).1 = removeCanvas reg id := by
    simp [deleteCanvas, h]
  have hnone' : getCanvas (removeCanvas reg id) id = none := by
    rw [getCanvas_removeCanvas, if_pos rfl]
  have hnone : getCanvas (deleteCanvas reg id).1 id = none := by
    rw [hdel]; exact hnone'
  refine ⟨by simp [deleteCanvas, h], hnone, ?_, ?_⟩
  · rw [hdel]
    simp [deleteCanvas, hnone']
  · exact fun ops hni => runOps_none lib ops (deleteCanvas reg id).1 id hnone hni

theorem delete_then_unresolvable_witness :
    (deleteCanvas demoReg "a").2 = .ok () ∧
    getCanvas (deleteCanvas demoReg "a").1 "a" = none ∧
    deleteCanvas (deleteCanvas demoReg "a").1 "a"
      = ((deleteCanvas demoReg "a").1, .error .canvasNotFound) := by
  have t := delete_then_unresolvable trivialLib demoReg "a" demoSession rfl
  exact ⟨t.1, t.2.1, t.2.2.1⟩

/-- C8: a valid init stores, under the fresh identifier, a session with
the declared dimensions, a surface of those dimensions that is white at
every pixel of the canvas, and an empty element log; the response echoes
the identifier and dimensions, info reports zero elements, and the preview
is the white snapshot. -/
theorem init_success_white (reg : Registry) (freshId : String) (w h : Int)
    (_hfresh : getCanvas reg freshId = none)
    (hw : 0 < w) (hw5 : w ≤ 5000) (hh : 0 < h) (hh5 : h ≤ 5000) :
    (init reg freshId (some w) (some h)).2
      = .ok { id := freshId, width := w, height := h } ∧
    ∃ sess, getCanvas (init reg freshId (some w) (some h)).1 freshId = some sess ∧
      sess.width = w ∧ sess.height = h ∧ sess.elements = [] ∧
      sess.canvas.width = w ∧ sess.canvas.height = h ∧
      (∀ i j : Int, 0 ≤ i → i < w → 0 ≤ j → j < h →
        sess.canvas.pix i j = Pixel.rgb "#ffffff") ∧
      (infoRoute (init reg freshId (some w) (some h)).1 freshId).2
        = .ok { id := freshId, width := w, height := h,
                elementCount := 0, elements := [] } ∧
      (preview (init reg freshId (some w) (some h)).1 freshId).2
        = .ok (toPng sess.canvas) := by
  have he := init_success_eq reg freshId w h hw hw5 hh hh5
  have hget : getCanvas (init reg freshId (some w) (some h)).1 freshId
      = some { canvas := fillRect (createCanvas w h) "#ffffff" 0 0 w h,
               width := w, height := h, elements := [] } := by
    rw [he, getCanvas_setCanvas, if_pos rfl]
  refine ⟨by rw [he], _, hget, rfl, rfl, rfl, rfl, rfl, ?_, ?_, ?_⟩
  · intro i j hi hiw hj hjh
    show ((rectFillMask "#ffffff" 0 0 w h i j).getD _) = Pixel.rgb "#ffffff"
    rw [rectFillMask, if_pos (by constructor <;> omega)]
    rfl
  · simp [infoRoute, hget]
  · simp [preview, hget]

theorem init_success_white_witness :
    (init emptyRegistry "n" (some 800) (some 600)).2
      = .ok { id := "n", width := 800, height := 600 } := by
  exact (init_success_white emptyRegistry "n" 800 600 rfl (by decide) (by decide)
    (by decide) (by decide)).1

/-- C10: an add/rectangle whose width or height is supplied as 0, an
add/circle whose radius is supplied as 0, and an add/text whose text is
supplied as the empty string are all rejected with the route's
missing-required-fields error (JavaScript falsiness of 0 and ""), and the
registry — hence the surface and log — is unchanged. -/
theorem zero_valued_fields_rejected_as_missing :
    (∀ (reg : Registry) (id : String) (sess : Session) (x y width height : Option Int)
        (color : Option String) (isFilled : Option Bool),
      getCanvas reg id = some sess → (width = some 0 ∨ height = some 0) →
      addRectangle reg id x y width height color isFilled
        = (reg, .error (.missingFields "x, y, width, and height are required"))) ∧
    (∀ (reg : Registry) (id : String) (sess : Session) (x y : Option Int)
        (color : Option String) (isFilled : Option Bool),
      getCanvas reg id = some sess →
      addCircle reg id x y (some 0) color isFilled
        = (reg, .error (.missingFields "x, y, and radius are required"))) ∧
    (∀ (lib : RenderLib) (reg : Registry) (id : String) (sess : Session)
        (x y fontSize : Option Int) (fontFamily color align : Option String),
      getCanvas reg id = some sess →
      addText lib reg id (some "") x y fontSize fontFamily color align
        = (reg, .error (.missingFields "text, x, and y are required"))) := by
  refine ⟨?_, ?_, ?_⟩
  · intro reg id sess x y width height color isFilled h hzero
    have hfal : (x.isNone || y.isNone || jsFalsy width || jsFalsy height) = true := by
      rcases hzero with hz | hz <;> subst hz <;> simp [jsFalsy]
    simp [addRectangle, h, hfal]
  · intro reg id sess x y color isFilled h
    have hfal : (x.isNone || y.isNone || jsFalsy (some 0)) = true := by
      simp [jsFalsy]
    simp [addCircle, h, hfal]
  · intro lib reg id sess x y fontSize fontFamily color align h
    have hfal : (jsFalsyStr (some "") || x.isNone || y.isNone) = true := by
      simp [jsFalsyStr]
    simp [addText, h, hfal]

theorem zero_valued_fields_rejected_witness :
    addRectangle demoReg "a" (some 1) (some 2) (some 0) (some 5) none none
      = (demoReg, .error (.missingFields "x, y, width, and height are required")) ∧
    addCircle demoReg "a" (some 1) (some 2) (some 0) none none
      = (demoReg, .error (.missingFields "x, y, and radius are required")) ∧
    addText trivialLib demoReg "a" (some "") (some 1) (some 2) none none none none
      = (demoReg, .error (.missingFields "text, x, and y are required")) := by
  refine ⟨?_, ?_, ?_⟩
  · exact zero_valued_fields_rejected_as_missing.1 demoReg "a" demoSession
      (some 1) (some 2) (some 0) (some 5) none none rfl (Or.inl rfl)
  · exact zero_valued_fields_rejected_as_missing.2.1 demoReg "a" demoSession
      (some 1) (some 2) none none rfl
  · exact zero_valued_fields_rejected_as_missing.2.2 trivialLib demoReg "a" demoSession
      (some 1) (some 2) none none none none rfl

/-- C9: a session created by a valid init keeps its declared width and
height across every later request sequence (fresh UUIDs never reuse its
identifier), its surface dimensions always equal the declared dimensions,
and info always reports the dimensions given at init. -/
theorem dims_immutable (lib : RenderLib) (reg : Registry) (freshId : String) (w h : Int)
    (hw : 0 < w) (hw5 : w ≤ 5000) (hh : 0 < h) (hh5 : h ≤ 5000)
    (ops : List Op) (hni : ∀ op ∈ ops, op.isInitWith freshId = false) (sess' : Session)
    (h' : getCanvas (runOps lib ops (init reg freshId (some w) (some h)).1) freshId
      = some sess') :
    sess'.width = w ∧ sess'.height = h ∧
    sess'.canvas.width = w ∧ sess'.canvas.height = h ∧
    (infoRoute (runOps lib ops (init reg freshId (some w) (some h)).1) freshId).2
      = .ok { id := freshId, width := w, height := h,
              elementCount := sess'.elements.length, elements := sess'.elements } := by
  have he := init_success_eq reg freshId w h hw hw5 hh hh5
  have h0 : getCanvas (init reg freshId (some w) (some h)).1 freshId
      = some { canvas := fillRect (createCanvas w h) "#ffffff" 0 0 w h,
               width := w, height := h, elements := [] } := by
    rw [he, getCanvas_setCanvas, if_pos rfl]
  have d := runOps_dims lib ops (init reg freshId (some w) (some h)).1 freshId
    _ sess' h0 hni h'
  exact ⟨d.1, d.2.1, d.2.2.1, d.2.2.2, by simp [infoRoute, h', d.1, d.2.1]⟩

theorem dims_immutable_witness :
    (infoRoute (runOps trivialLib [] (init emptyRegistry "n" (some 800) (some 600)).1)
        "n").2
      = .ok { id := "n", width := 800, height := 600,
              elementCount := 0, elements := [] } := by
  have h' : getCanvas (runOps trivialLib [] (init emptyRegistry "n" (some 800)
      (some 600)).1) "n" = some initDemoSession := rfl
  exact (dims_immutable trivialLib emptyRegistry "n" 800 600 (by decide) (by decide)
    (by decide) (by decide) [] (fun op hop => absurd hop (List.not_mem_nil op))
    initDemoSession h').2.2.2.2

theorem jsFalsy_eq_false_iff (o : Option Int) :
    jsFalsy o = false ↔ ∃ v, o = some v ∧ v ≠ 0 := by
  cases o <;> simp [jsFalsy]

theorem jsFalsyStr_eq_false_iff (o : Option String) :
    jsFalsyStr o = false ↔ ∃ v, o = some v ∧ v ≠ "" := by
  cases o <;> simp [jsFalsyStr]

/-- C3 (amended): every successful add appends exactly one fully resolved
element to the log — all required fields present (and non-falsy) and all
defaults applied; rectangle, circle and text elements carry their full
field set, a URL image element carries its source url and resolved draw
box, while an upload image element carries position and resolved draw box
but no source reference. -/
theorem log_entries_fully_resolved (lib : RenderLib) (reg : Registry) (id : String)
    (sess : Session) (h : getCanvas reg id = some sess) :
    (∀ x y width height color isFilled sess',
      (addRectangle reg id x y width height color isFilled).2 = .ok () →
      getCanvas (addRectangle reg id x y width height color isFilled).1 id = some sess' →
      ∃ xv yv wv hv, x = some xv ∧ y = some yv ∧
        width = some wv ∧ wv ≠ 0 ∧ height = some hv ∧ hv ≠ 0 ∧
        sess'.elements = sess.elements ++
          [Element.rectangle { x := xv, y := yv, width := wv, height := hv,
                               color := color.getD "#000000",
                               isFilled := isFilled.getD true }]) ∧
    (∀ x y radius color isFilled sess',
      (addCircle reg id x y radius color isFilled).2 = .ok () →
      getCanvas (addCircle reg id x y radius color isFilled).1 id = some sess' →
      ∃ xv yv rv, x = some xv ∧ y = some yv ∧ radius = some rv ∧ rv ≠ 0 ∧
        sess'.elements = sess.elements ++
          [Element.circle { x := xv, y := yv, radius := rv,
                            color := color.getD "#000000",
                            isFilled := isFilled.getD true }]) ∧
    (∀ text x y fontSize fontFamily color align sess',
      (addText lib reg id text x y fontSize fontFamily color align).2 = .ok () →
      getCanvas (addText lib reg id text x y fontSize fontFamily color align).1 id
        = some sess' →
      ∃ tv xv yv, text = some tv ∧ tv ≠ "" ∧ x = some xv ∧ y = some yv ∧
        sess'.elements = sess.elements ++
          [Element.text { text := tv, x := xv, y := yv,
                          fontSize := fontSize.getD 16,
                          fontFamily := fontFamily.getD "Arial",
                          color := color.getD "#000000",
                          align := align.getD "left" }]) ∧
    (∀ url x y width height fetched sess',
      (addImage lib reg id url x y width height fetched).2 = .ok () →
      getCanvas (addImage lib reg id url x y width height fetched).1 id = some sess' →
      ∃ u xv yv img, url = some u ∧ u ≠ "" ∧ x = some xv ∧ y = some yv ∧
        fetched = some img ∧
        sess'.elements = sess.elements ++
          [Element.image { url := some u, x := xv, y := yv,
                           width := if jsFalsy width then img.width else width.getD 0,
                           height := if jsFalsy height then img.height
                                     else height.getD 0 }]) ∧
    (∀ x y width height file sess',
      (addImageUpload lib reg id x y width height file).2 = .ok () →
      getCanvas (addImageUpload lib reg id x y width height file).1 id = some sess' →
      ∃ img, file = some (some img) ∧
        sess'.elements = sess.elements ++
          [Element.image { url := none, x := x.getD 0, y := y.getD 0,
                           width := if jsFalsy width then img.width else width.getD 0,
                           height := if jsFalsy height then img.height
                                     else height.getD 0 }]) := by
  refine ⟨?_, ?_, ?_, ?_, ?_⟩
  · intro x y width height color isFilled sess' hok hget
    cases hcond : (x.isNone || y.isNone || jsFalsy width || jsFalsy height) with
    | true => simp [addRectangle, h, hcond] at hok
    | false =>
      simp only [addRectangle, h, hcond, Bool.false_eq_true, if_false] at hget
      rw [getCanvas_setCanvas, if_pos rfl] at hget
      cases Option.some.inj hget
      simp only [Bool.or_eq_false_iff] at hcond
      obtain ⟨⟨⟨hx, hy⟩, hw⟩, hh⟩ := hcond
      cases x with
      | none => simp at hx
      | some xv =>
        cases y with
        | none => simp at hy
        | some yv =>
          obtain ⟨wv, hwv, hwz⟩ := (jsFalsy_eq_false_iff width).mp hw
          obtain ⟨hv2, hhv, hhz⟩ := (jsFalsy_eq_false_iff height).mp hh
          subst hwv
          subst hhv
          exact ⟨xv, yv, wv, hv2, rfl, rfl, rfl, hwz, rfl, hhz, rfl⟩
  · intro x y radius color isFilled sess' hok hget
    cases hcond : (x.isNone || y.isNone || jsFalsy radius) with
    | true => simp [addCircle, h, hcond] at hok
    | false =>
      simp only [addCircle, h, hcond, Bool.false_eq_true, if_false] at hget
      rw [getCanvas_setCanvas, if_pos rfl] at hget
      cases Option.some.inj hget
      simp only [Bool.or_eq_false_iff] at hcond
      obtain ⟨⟨hx, hy⟩, hr⟩ := hcond
      cases x with
      | none => simp at hx
      | some xv =>
        cases y with
        | none => simp at hy
        | some yv =>
          obtain ⟨rv, hrv, hrz⟩ := (jsFalsy_eq_false_iff radius).mp hr
          subst hrv
          exact ⟨xv, yv, rv, rfl, rfl, rfl, hrz, rfl⟩
  · intro text x y fontSize fontFamily color align sess' hok hget
    cases hcond : (jsFalsyStr text || x.isNone || y.isNone) with
    | true => simp [addText, h, hcond] at hok
    | false =>
      simp only [addText, h, hcond, Bool.false_eq_true, if_false] at hget
      rw [getCanvas_setCanvas, if_pos rfl] at hget
      cases Option.some.inj hget
      simp only [Bool.or_eq_false_iff] at hcond
      obtain ⟨⟨ht, hx⟩, hy⟩ := hcond
      obtain ⟨tv, htv, htz⟩ := (jsFalsyStr_eq_false_iff text).mp ht
      subst htv
      cases x with
      | none => simp at hx
      | some xv =>
        cases y with
        | none => simp at hy
        | some yv => exact ⟨tv, xv, yv, rfl, htz, rfl, rfl, rfl⟩
  · intro url x y width height fetched sess' hok hget
    cases hcond : (jsFalsyStr url || x.isNone || y.isNone) with
    | true => simp [addImage, h, hcond] at hok
    | false =>
      cases fetched with
      | none => simp [addImage, h, hcond] at hok
      | some img =>
        simp only [addImage, h, hcond, Bool.false_eq_true, if_false] at hget
        rw [getCanvas_setCanvas, if_pos rfl] at hget
        cases Option.some.inj hget
        simp only [Bool.or_eq_false_iff] at hcond
        obtain ⟨⟨hu, hx⟩, hy⟩ := hcond
        obtain ⟨u, huv, huz⟩ := (jsFalsyStr_eq_false_iff url).mp hu
        subst huv
        cases x with
        | none => simp at hx
        | some xv =>
          cases y with
          | none => simp at hy
          | some yv => exact ⟨u, xv, yv, img, rfl, huz, rfl, rfl, rfl, rfl⟩
  · intro x y width height file sess' hok hget
    cases file with
    | none => simp [addImageUpload, h] at hok
    | some decoded =>
      cases decoded with
      | none => simp [addImageUpload, h] at hok
      | some img =>
        simp only [addImageUpload, h] at hget
        rw [getCanvas_setCanvas, if_pos rfl] at hget
        cases Option.some.inj hget
        exact ⟨img, rfl, rfl⟩

theorem log_entries_fully_resolved_witness :
    (addRectangle demoReg "a" (some 3) (some 4) (some 7) (some 8) none none).2
      = .ok () ∧
    ((getCanvas (addRectangle demoReg "a" (some 3) (some 4) (some 7) (some 8)
        none none).1 "a").map Session.elements)
      = some [Element.rectangle { x := 3, y := 4, width := 7, height := 8,
                                  color := "#000000", isFilled := true }] := by
  have hok : (addRectangle demoReg "a" (some 3) (some 4) (some 7) (some 8)
      none none).2 = .ok () := rfl
  have hget : getCanvas (addRectangle demoReg "a" (some 3) (some 4) (some 7) (some 8)
      none none).1 "a" = some { demoSession with
        canvas := applyMask (rectFillMask "#000000" 3 4 7 8) demoSession.canvas,
        elements := [Element.rectangle { x := 3, y := 4, width := 7, height := 8,
                                         color := "#000000", isFilled := true }] } := rfl
  have t := (log_entries_fully_resolved trivialLib demoReg "a" demoSession rfl).1
    (some 3) (some 4) (some 7) (some 8) none none _ hok hget
  obtain ⟨xv, yv, wv, hv, hx, hy, hw, _, hh, _, hel⟩ := t
  cases Option.some.inj hx
  cases Option.some.inj hy
  cases Option.some.inj hw
  cases Option.some.inj hh
  exact ⟨hok, by rw [hget]; simp [hel, demoSession]⟩

/-- C3 (counterexample): a successful image-upload add enters an element
into the log that carries no source reference — contradicting the claim
that every logged element carries its variant's full field set including
the image's source reference. -/
theorem upload_log_entry_lacks_source :
    ((getCanvas (addImageUpload trivialLib demoReg "a" none none none none
        (some (some demoImage))).1 "a").map
      (fun s => s.elements.all Element.hasSourceFields)) = some false := by
  rfl

theorem applyMask_pix (m : Mask) (s : Surface) (i j : Int) :
    (applyMask m s).pix i j = (m i j).getD (s.pix i j) :=
  rfl

/-- C4 (amended): adding the same two elements by two successful add calls
in opposite orders to two equal sessions yields element logs that differ
only in order (a permutation), previews that agree at every pixel outside
the two footprints' overlap, and, per painter's-algorithm compositing, the
later-added element's pixels win wherever it paints — so within the
overlap each preview shows its later element's color (the previews differ
at an overlap pixel exactly when the two elements' colors differ there). -/
theorem add_order_painter (lib : RenderLib) (a1 a2 b1 b2 : Op) (idA idB : String)
    (m1 m2 : Mask) (e1 e2 : Element) (regA regB : Registry) (sess : Session)
    (hA : getCanvas regA idA = some sess) (hB : getCanvas regB idB = some sess)
    (ha1 : a1.targets = some idA) (ha2 : a2.targets = some idA)
    (hb1 : b1.targets = some idB) (hb2 : b2.targets = some idB)
    (hae1 : a1.addEffect lib = some (m1, e1)) (hbe1 : b1.addEffect lib = some (m1, e1))
    (hae2 : a2.addEffect lib = some (m2, e2)) (hbe2 : b2.addEffect lib = some (m2, e2)) :
    ∃ sA sB,
      getCanvas (step lib a2 (step lib a1 regA)) idA = some sA ∧
      getCanvas (step lib b1 (step lib b2 regB)) idB = some sB ∧
      sA.elements = sess.elements ++ [e1, e2] ∧
      sB.elements = sess.elements ++ [e2, e1] ∧
      sA.elements.Perm sB.elements ∧
      (∀ i j : Int, m1 i j = none ∨ m2 i j = none →
        sA.canvas.pix i j = sB.canvas.pix i j) ∧
      (∀ i j : Int, ∀ c, m2 i j = some c → sA.canvas.pix i j = c) ∧
      (∀ i j : Int, ∀ c, m1 i j = some c → sB.canvas.pix i j = c) ∧
      (preview (step lib a2 (step lib a1 regA)) idA).2 = .ok (toPng sA.canvas) ∧
      (preview (step lib b1 (step lib b2 regB)) idB).2 = .ok (toPng sB.canvas) := by
  have s1 := step_of_addEffect lib a1 regA idA m1 e1 sess ha1 hae1 hA
  have hA1 : getCanvas (step lib a1 regA) idA
      = some { sess with canvas := applyMask m1 sess.canvas,
                         elements := sess.elements ++ [e1] } := by
    rw [s1, getCanvas_setCanvas, if_pos rfl]
  have s2 := step_of_addEffect lib a2 (step lib a1 regA) idA m2 e2 _ ha2 hae2 hA1
  have hA2 : getCanvas (step lib a2 (step lib a1 regA)) idA
      = some { sess with canvas := applyMask m2 (applyMask m1 sess.canvas),
                         elements := (sess.elements ++ [e1]) ++ [e2] } := by
    rw [s2, getCanvas_setCanvas, if_pos rfl]
  have t2 := step_of_addEffect lib b2 regB idB m2 e2 sess hb2 hbe2 hB
  have hB2 : getCanvas (step lib b2 regB) idB
      = some { sess with canvas := applyMask m2 sess.canvas,
                         elements := sess.elements ++ [e2] } := by
    rw [t2, getCanvas_setCanvas, if_pos rfl]
  have t1 := step_of_addEffect lib b1 (step lib b2 regB) idB m1 e1 _ hb1 hbe1 hB2
  have hB1 : getCanvas (step lib b1 (step lib b2 regB)) idB
      = some { sess with canvas := applyMask m1 (applyMask m2 sess.canvas),
                         elements := (sess.elements ++ [e2]) ++ [e1] } := by
    rw [t1, getCanvas_setCanvas, if_pos rfl]
  refine ⟨_, _, hA2, hB1, ?_, ?_, ?_, ?_, ?_, ?_, ?_, ?_⟩
  · simp
  · simp
  · simpa using List.Perm.append_left sess.elements (List.Perm.swap e2 e1 [])
  · intro i j hnone
    rcases hnone with hn | hn <;>
      cases hm1 : m1 i j <;> cases hm2 : m2 i j <;>
        simp_all [applyMask_pix]
  · intro i j c hm
    simp [applyMask_pix, hm]
  · intro i j c hm
    simp [applyMask_pix, hm]
  · simp [preview, hA2]
  · simp [preview, hB1]

theorem add_order_painter_witness :
    ((getCanvas (step trivialLib demoOp2A (step trivialLib demoOp1A demoReg)) "a").map
      Session.elements) = some [demoRect1, demoRect2] ∧
    ((getCanvas (step trivialLib demoOp1B (step trivialLib demoOp2B demoRegB)) "b").map
      Session.elements) = some [demoRect2, demoRect1] := by
  obtain ⟨sA, sB, h1, h2, h3, h4, -⟩ :=
    add_order_painter trivialLib demoOp1A demoOp2A demoOp1B demoOp2B "a" "b"
      (rectFillMask "#000000" 0 0 10 10) (rectFillMask "#000000" 5 5 10 10)
      demoRect1 demoRect2 demoReg demoRegB demoSession
      rfl rfl rfl rfl rfl rfl rfl rfl rfl rfl
  constructor
  · rw [h1]
    simp [h3, demoSession]
  · rw [h2]
    simp [h4, demoSession]

/-- C4 (counterexample): the same two overlapping black rectangles added
in opposite orders to two equal fresh sessions: the pixel (5,5) lies in
both footprints — the overlap region is nonempty — yet the two previews
hold the same color there (and the claim demands the previews differ
exactly at the overlapping region). -/
theorem order_previews_equal_on_overlap :
    (rectFillMask "#000000" 0 0 10 10 5 5).isSome = true ∧
    (rectFillMask "#000000" 5 5 10 10 5 5).isSome = true ∧
    ((getCanvas demoOrderRunA "a").map (fun s => s.canvas.pix 5 5))
      = some (Pixel.rgb "#000000") ∧
    ((getCanvas demoOrderRunB "b").map (fun s => s.canvas.pix 5 5))
      = some (Pixel.rgb "#000000") := by
  refine ⟨by decide, by decide, ?_, ?_⟩ <;> rfl

end CanvasBuilder
